import Mathlib

/-!
Shallow embedding of the `google_meet_agent` package (tools.py, agent.py,
config.py, exceptions.py) and proofs about it.

External effects (the Composio remote platform, the Anthropic model API and
plain HTTP GETs) are modelled as explicit oracle inputs; Python exceptions
are modelled as `Except` error values; Python dicts as association lists of
`Json` values with Python's update/erase/truthiness semantics.
-/

set_option maxHeartbeats 1000000

namespace GoogleMeetAgent

/-! ## Python-style JSON values and dict operations -/

/-- A Python value as passed through the agent: JSON-like data. -/
inductive Json where
  | null : Json
  | bool (b : Bool) : Json
  | num (n : Int) : Json
  | str (s : String) : Json
  | arr (items : List Json) : Json
  | obj (fields : List (String × Json)) : Json
deriving Repr

/-- Python truthiness of a value (`if x:`). -/
def Json.truthy : Json → Bool
  | .null => false
  | .bool b => b
  | .num n => n != 0
  | .str s => s ≠ ""
  | .arr items => !items.isEmpty
  | .obj fields => !fields.isEmpty

/-- `d.get(k)` on a Python dict: first binding of the key, if any. -/
def dget (fields : List (String × Json)) (k : String) : Option Json :=
  match fields with
  | [] => none
  | (k', v') :: rest => if k' = k then some v' else dget rest k

/-- `d[k] = v` on a Python dict: replace in place if the key exists
(keeping its position), otherwise append at the end. -/
def dset (fields : List (String × Json)) (k : String) (v : Json) :
    List (String × Json) :=
  match fields with
  | [] => [(k, v)]
  | (k', v') :: rest =>
      if k' = k then (k', v) :: rest else (k', v') :: dset rest k v

/-- `del d[k]` on a Python dict (no error tracking: callers guard existence). -/
def derase (fields : List (String × Json)) (k : String) : List (String × Json) :=
  match fields with
  | [] => []
  | (k', v') :: rest =>
      if k' = k then rest else (k', v') :: derase rest k

/-- `a or b` on optional Python values: keep `a` when present and truthy. -/
def pyOr (a b : Option Json) : Option Json :=
  match a with
  | some v => if v.truthy then some v else b
  | none => b

/-! ## String helpers (substring test and lower-casing, as Python uses them) -/

/-- Whether the first list of characters starts the second. -/
def charsStart : List Char → List Char → Bool
  | [], _ => true
  | _ :: _, [] => false
  | a :: as_, b :: bs => a == b && charsStart as_ bs

/-- Whether the first list occurs contiguously inside the second. -/
def charsSub (needle : List Char) : List Char → Bool
  | [] => charsStart needle []
  | b :: bs => charsStart needle (b :: bs) || charsSub needle bs

/-- Python's `needle in haystack` on strings. -/
def strIn (needle haystack : String) : Bool :=
  charsSub needle.data haystack.data

/-- Python's `s.startswith(pre)`. -/
def strStarts (pre s : String) : Bool :=
  charsStart pre.data s.data

/-- Python's `s.lower()` (ASCII case folding suffices for the messages used). -/
def strLower (s : String) : String :=
  String.mk (s.data.map Char.toLower)

/-! ## Error taxonomy (exceptions.py), plus foreign exceptions that cross the
boundary (anthropic API errors and arbitrary Python exceptions). -/

/-- Exceptions that flow through the agent.  The first five constructors are
the repository's `GoogleMeetAgentError` subclasses (exceptions.py); the last
two model exceptions of foreign classes. -/
inductive AgentError where
  | configurationError (msg : String)
  | authConfigNotFoundError (msg : String)
  | composioConnectionError (msg : String)
  | googleMeetAPIError (msg : String) (statusCode : Option Nat)
  | rateLimitError (msg : String)
  | anthropicAPIError (msg : String)
  | pyError (typeName : String) (msg : String)
deriving Repr, DecidableEq

/-- `str(e)`: the exception's message. -/
def AgentError.message : AgentError → String
  | .configurationError m => m
  | .authConfigNotFoundError m => m
  | .composioConnectionError m => m
  | .googleMeetAPIError m _ => m
  | .rateLimitError m => m
  | .anthropicAPIError m => m
  | .pyError _ m => m

/-- `type(e).__name__`. -/
def AgentError.typeName : AgentError → String
  | .configurationError _ => "ConfigurationError"
  | .authConfigNotFoundError _ => "AuthConfigNotFoundError"
  | .composioConnectionError _ => "ComposioConnectionError"
  | .googleMeetAPIError _ _ => "GoogleMeetAPIError"
  | .rateLimitError _ => "RateLimitError"
  | .anthropicAPIError _ => "APIError"
  | .pyError t _ => t

/-- Membership in the `GoogleMeetAgentError` hierarchy (exceptions.py). -/
def AgentError.isAgentFamily : AgentError → Bool
  | .configurationError _ => true
  | .authConfigNotFoundError _ => true
  | .composioConnectionError _ => true
  | .googleMeetAPIError _ _ => true
  | .rateLimitError _ => true
  | .anthropicAPIError _ => false
  | .pyError _ _ => false

/-- `isinstance(e, (ComposioConnectionError, RateLimitError))`: the retry
predicate both `@retry` decorators in tools.py use. -/
def retryableException : AgentError → Bool
  | .composioConnectionError _ => true
  | .rateLimitError _ => true
  | _ => false

/-- Default message of `RateLimitError()` with no arguments (exceptions.py). -/
def rateLimitDefaultMessage : String := "Google Meet API rate limit exceeded."

/-! ## JSON serialization (models the `json.dumps` library calls) -/

/-- Escape a character for a JSON string literal. -/
def jsonEscapeChar (c : Char) : String :=
  if c = '"' then "\\\""
  else if c = '\\' then "\\\\"
  else if c = '\n' then "\\n"
  else String.mk [c]

/-- Escape a string for a JSON string literal. -/
def jsonEscape (s : String) : String :=
  String.join (s.data.map jsonEscapeChar)

mutual

/-- Render a value as JSON text (models Python's `json.dumps`). -/
def jsonDumps : Json → String
  | .null => "null"
  | .bool b => if b then "true" else "false"
  | .num n => toString n
  | .str s => "\"" ++ jsonEscape s ++ "\""
  | .arr items => "[" ++ jsonDumpsList items ++ "]"
  | .obj fields => "\x7b" ++ jsonDumpsFields fields ++ "\x7d"

/-- Render the elements of a JSON array, comma separated. -/
def jsonDumpsList : List Json → String
  | [] => ""
  | [v] => jsonDumps v
  | v :: rest => jsonDumps v ++ ", " ++ jsonDumpsList rest

/-- Render the fields of a JSON object, comma separated. -/
def jsonDumpsFields : List (String × Json) → String
  | [] => ""
  | [(k, v)] => "\"" ++ jsonEscape k ++ "\": " ++ jsonDumps v
  | (k, v) :: rest =>
      "\"" ++ jsonEscape k ++ "\": " ++ jsonDumps v ++ ", " ++ jsonDumpsFields rest

end

/-! ## Text decoding (models `bytes.decode("utf-8")` / `bytes.decode("latin-1")`) -/

/-- Whether a byte is a UTF-8 continuation byte (0x80–0xBF). -/
def isCont (b : Nat) : Bool := 0x80 ≤ b && b < 0xC0

/-- Strict UTF-8 decoding of a byte sequence, as Python's
`bytes.decode("utf-8")`: `none` on any invalid, truncated, overlong or
surrogate sequence. -/
def utf8Decode : List Nat → Option (List Char)
  | [] => some []
  | b :: rest =>
    if b < 0x80 then
      (utf8Decode rest).map (fun cs => Char.ofNat b :: cs)
    else if b < 0xC2 then
      none
    else if b < 0xE0 then
      match rest with
      | b2 :: rest2 =>
        if isCont b2 then
          (utf8Decode rest2).map
            (fun cs => Char.ofNat ((b - 0xC0) * 64 + (b2 - 0x80)) :: cs)
        else none
      | [] => none
    else if b < 0xF0 then
      match rest with
      | b2 :: b3 :: rest3 =>
        let lowOk : Bool :=
          if b = 0xE0 then 0xA0 ≤ b2 && b2 < 0xC0
          else if b = 0xED then 0x80 ≤ b2 && b2 < 0xA0
          else isCont b2
        if lowOk && isCont b3 then
          (utf8Decode rest3).map
            (fun cs =>
              Char.ofNat ((b - 0xE0) * 4096 + (b2 - 0x80) * 64 + (b3 - 0x80)) :: cs)
        else none
      | _ => none
    else if b < 0xF5 then
      match rest with
      | b2 :: b3 :: b4 :: rest4 =>
        let lowOk : Bool :=
          if b = 0xF0 then 0x90 ≤ b2 && b2 < 0xC0
          else if b = 0xF4 then 0x80 ≤ b2 && b2 < 0x90
          else isCont b2
        if lowOk && isCont b3 && isCont b4 then
          (utf8Decode rest4).map
            (fun cs =>
              Char.ofNat ((b - 0xF0) * 262144 + (b2 - 0x80) * 4096 +
                (b3 - 0x80) * 64 + (b4 - 0x80)) :: cs)
        else none
      | _ => none
    else none

/-- Latin-1 decoding: byte-for-byte, never fails (Python
`bytes.decode("latin-1")`). -/
def latin1Decode (bytes : List Nat) : String :=
  String.mk (bytes.map Char.ofNat)

/-! ## fetch_file_content_from_url (tools.py lines 48–75) -/

/-- Outcome of the `urllib.request.urlopen(...).read()` call inside
`fetch_file_content_from_url`: the response body, a `urllib.error.URLError`,
or some other exception. -/
inductive FetchOutcome where
  | body (bytes : List Nat)
  | urlError (msg : String)
  | exn (msg : String)
deriving Repr

/-- `fetch_file_content_from_url`: decode the body as UTF-8, fall back to
Latin-1 on a `UnicodeDecodeError`; convert a `URLError` to
`"Error fetching content: ..."` and any other exception to `"Error: ..."`.
Never raises. -/
def fetch_file_content_from_url (o : FetchOutcome) : String :=
  match o with
  | .body bytes =>
    match utf8Decode bytes with
    | some cs => String.mk cs
    | none => latin1Decode bytes
  | .urlError m => "Error fetching content: " ++ m
  | .exn m => "Error: " ++ m

/-! ## The tenacity retry decorator
`@retry(stop=stop_after_attempt(3), wait=wait_exponential(multiplier=1, min=1,
max=10), retry=retry_if_exception_type(...), reraise=True)` as applied to both
decorated functions in tools.py. -/

/-- tenacity's `wait_exponential(multiplier=1, min=1, max=10)` evaluated after
the failure of (1-based) attempt `n`: `max(min, min(multiplier * 2^(n-1), max))`
seconds. -/
def wait_exponential (multiplier min_ max_ n : Nat) : Nat :=
  Nat.max min_ (Nat.min (multiplier * 2 ^ (n - 1)) max_)

/-- The delay tenacity sleeps after failed attempt `n` under the decorators in
tools.py (`multiplier=1, min=1, max=10`). -/
def retryDelay (n : Nat) : Nat := wait_exponential 1 1 10 n

/-- Trace of one run of a tenacity-decorated function: the final outcome
(`.error` = the exception reraised to the caller), how many times the wrapped
body ran, and the sleeps performed between attempts, in order. -/
structure RetryTrace (α : Type) where
  result : Except AgentError α
  attemptsMade : Nat
  delays : List Nat
deriving Repr

/-- One run of a tenacity-decorated body.  `attempts k` is the outcome of the
body's `k`-th execution (1-based); `retryable` is the
`retry_if_exception_type` predicate; `remaining` attempts are still allowed
(`stop_after_attempt(3)` starts this at 3).  With `reraise=True` the original
exception is reraised once the stop condition holds or the exception is not
retryable. -/
def tenacityRun (retryable : AgentError → Bool)
    (attempts : Nat → Except AgentError α) :
    (attemptNo remaining : Nat) → RetryTrace α
  | attemptNo, 0 => ⟨attempts attemptNo, 1, []⟩
  | attemptNo, 1 => ⟨attempts attemptNo, 1, []⟩
  | attemptNo, remaining + 2 =>
    match attempts attemptNo with
    | .ok a => ⟨.ok a, 1, []⟩
    | .error e =>
      if retryable e then
        let rest := tenacityRun retryable attempts (attemptNo + 1) (remaining + 1)
        ⟨rest.result, rest.attemptsMade + 1, retryDelay attemptNo :: rest.delays⟩
      else ⟨.error e, 1, []⟩

/-! ## execute_google_meet_tool (tools.py lines 346–466) -/

/-- App-name constants from tools.py. -/
def GOOGLEMEET_APP_NAME : String := "googlemeet"

/-- App-name constant for Google Drive from tools.py. -/
def GOOGLEDRIVE_APP_NAME : String := "googledrive"

/-- `EXPECTED_MEET_TOOLS` (tools.py lines 32–38). -/
def EXPECTED_MEET_TOOLS : List String :=
  [ "GOOGLEMEET_LIST_CONFERENCE_RECORDS",
    "GOOGLEMEET_GET_CONFERENCE_RECORD",
    "GOOGLEMEET_LIST_PARTICIPANT_SESSIONS",
    "GOOGLEMEET_GET_PARTICIPANT_SESSION",
    "GOOGLEMEET_GET_TRANSCRIPTS_BY_CONFERENCE_RECORD_ID" ]

/-- `GOOGLEDRIVE_TOOLS_FOR_NOTES` (tools.py lines 41–45). -/
def GOOGLEDRIVE_TOOLS_FOR_NOTES : List String :=
  [ "GOOGLEDRIVE_LIST_FILES",
    "GOOGLEDRIVE_DOWNLOAD_FILE",
    "GOOGLEDRIVE_GET_FILE_METADATA" ]

/-- The raw value returned by `composio.tools.execute` /
`composio.actions.execute`: a dict, or some other object (kept as its `str`). -/
inductive RawExecResult where
  | dict (fields : List (String × Json))
  | nonDict (s : String)
deriving Repr

/-- Environment of one attempt of the `execute_google_meet_tool` body:
the connected-account lookup result (`get_connected_account_for_tool`, which
swallows its own errors and returns `None` on failure), the outcome of the
SDK execute call (`.error` = the raised exception's `str(e)`), and the
outcome of the HTTP GET should the download special case fire. -/
structure ExecEnv where
  connectedAccount : Option String
  execOutcome : Except String RawExecResult
  fetchOutcome : FetchOutcome

/-- Classification of a non-`GoogleMeetAPIError` exception in the `except`
block of `execute_google_meet_tool` (tools.py lines 440–466), by substring
tests on `str(e).lower()`, in source order. -/
def classifyExecError (tool_slug : String) (rawMsg : String) : AgentError :=
  let error_msg := strLower rawMsg
  if strIn "429" error_msg || strIn "rate limit" error_msg then
    .rateLimitError rateLimitDefaultMessage
  else if strIn "403" error_msg || strIn "permission" error_msg then
    .googleMeetAPIError
      "Permission denied. Ensure you have a Google Workspace account with Meet API access."
      (some 403)
  else if strIn "404" error_msg || strIn "not found" error_msg then
    .googleMeetAPIError ("Resource not found: " ++ tool_slug) (some 404)
  else
    .googleMeetAPIError ("Failed to execute " ++ tool_slug ++ ": " ++ rawMsg) none

/-- Message of the `AttributeError` Python raises when `.get` is called on a
non-dict: classified like any other foreign exception. -/
def attributeErrorMsg : String := "object has no attribute get"

/-- The `GOOGLEDRIVE_DOWNLOAD_FILE` post-processing (tools.py lines 421–432):
dereference the temporary `s3url`, inject the fetched text under
`file_content`, set `content_fetched`, and delete the `s3url` key from the
nested `downloaded_file_content` dict.  Returns the updated `data` dict, or
the exception raised by calling `.get` on a non-dict value. -/
def downloadPostProcess (fetchOutcome : FetchOutcome)
    (data : List (String × Json)) : Except String (List (String × Json)) :=
  match dget data "downloaded_file_content" with
  | none => .ok data
  | some (.obj downloaded) =>
    match dget downloaded "s3url" with
    | some (.str u) =>
      if u ≠ "" then
        let file_content := fetch_file_content_from_url fetchOutcome
        let data1 := dset data "file_content" (.str file_content)
        let data2 := dset data1 "content_fetched" (.bool true)
        let data3 :=
          if (dget data2 "downloaded_file_content").isSome then
            dset data2 "downloaded_file_content" (.obj (derase downloaded "s3url"))
          else data2
        .ok data3
      else .ok data
    | _ => .ok data
  | some _ => .error attributeErrorMsg

/-- The tail of the `execute_google_meet_tool` body after the error check:
the `GOOGLEDRIVE_DOWNLOAD_FILE` special case followed by the final wrap into
`{"success": True, "data": data}`.  A non-dict `data` under the download tool
raises (Python `AttributeError` on `.get`), which the enclosing `except`
block classifies. -/
def executeToolDownloadStep (tool_slug : String) (env : ExecEnv) (data : Json) :
    Except AgentError Json :=
  if tool_slug = "GOOGLEDRIVE_DOWNLOAD_FILE" then
    match data with
    | .obj dataFields =>
      match downloadPostProcess env.fetchOutcome dataFields with
      | .ok dataFields2 =>
        .ok (.obj [("success", .bool true), ("data", .obj dataFields2)])
      | .error m => .error (classifyExecError tool_slug m)
    | _ => .error (classifyExecError tool_slug attributeErrorMsg)
  else
    .ok (.obj [("success", .bool true), ("data", data)])

/-- One execution of the body of `execute_google_meet_tool` (inside the
`@retry` decorator), for tool `tool_slug` in environment `env`.  On success
returns the `{"success": True, "data": ...}` dict as a `Json` value; on
failure the mapped `AgentError`. -/
def executeToolOnce (tool_slug : String) (env : ExecEnv) :
    Except AgentError Json :=
  match env.connectedAccount with
  | none =>
    if strStarts "GOOGLEDRIVE_" tool_slug then
      .error (.googleMeetAPIError
        "No active Google Drive connection found. Please set up Google Drive integration."
        (some 401))
    else
      .error (.googleMeetAPIError
        "No active Google Meet connection found. Please run setup first."
        (some 401))
  | some _ =>
    match env.execOutcome with
    | .error rawMsg => .error (classifyExecError tool_slug rawMsg)
    | .ok (.nonDict s) => .ok (.obj [("success", .bool true), ("data", .str s)])
    | .ok (.dict fields) =>
      let data := (dget fields "data").getD (.obj fields)
      match dget fields "error" with
      | some errVal =>
        if errVal.truthy then
          .error (.googleMeetAPIError ("API Error: " ++ jsonDumps errVal) none)
        else
          executeToolDownloadStep tool_slug env data
      | none => executeToolDownloadStep tool_slug env data

/-- `execute_google_meet_tool`: the body above wrapped in
`@retry(stop=stop_after_attempt(3), wait=wait_exponential(multiplier=1, min=1,
max=10), retry=retry_if_exception_type((ComposioConnectionError,
RateLimitError)), reraise=True)`.  `envs k` is the environment seen by the
`k`-th attempt (1-based). -/
def execute_google_meet_tool (tool_slug : String) (envs : Nat → ExecEnv) :
    RetryTrace Json :=
  tenacityRun retryableException (fun k => executeToolOnce tool_slug (envs k)) 1 3

/-! ## get_google_meet_tools (tools.py lines 139–206) and its normalization
helpers.  Catalog items are modelled as Python dicts (both remote response
shapes the repository handles are dict-shaped: the new-SDK
`{"function": {...}}` nesting and the old-SDK flat dict). -/

/-- A raw catalog item: a Python dict. -/
abbrev RawTool := List (String × Json)

/-- `d.get(k, default)` reading a string field. -/
def dgetStr (fields : List (String × Json)) (k : String) (default : String) :
    String :=
  match dget fields k with
  | some (.str s) => s
  | _ => default

/-- `_get_tool_name` (tools.py lines 90–100) on a dict-shaped item: prefer the
nested `function.name` of the new SDK shape, else the flat `name` field. -/
def get_tool_name (tool : RawTool) : String :=
  match dget tool "function" with
  | some (.obj func) => dgetStr func "name" ""
  | _ => dgetStr tool "name" ""

/-- An Operation Descriptor in Anthropic format: the
`{"name", "description", "input_schema"}` dict every catalog item is
normalized into. -/
structure AnthropicTool where
  name : String
  description : String
  input_schema : Json
deriving Repr

/-- The `{"type": "object", "properties": {}}` default schema. -/
def emptySchema : Json := .obj [("type", .str "object"), ("properties", .obj [])]

/-- `_convert_to_anthropic_format` (tools.py lines 209–239): flat-dict
normalization with Python `or`-chains (empty strings and empty dicts are
falsy) and schema field repair. -/
def convert_to_anthropic_format (tool : RawTool) : AnthropicTool :=
  let name :=
    match pyOr (dget tool "name") (pyOr (dget tool "slug") (dget tool "action")) with
    | some (.str s) => if s = "" then "unknown" else s
    | _ => "unknown"
  let description :=
    match pyOr (dget tool "description") (dget tool "desc") with
    | some (.str s) => s
    | _ => ""
  let rawSchema :=
    (pyOr (dget tool "input_schema")
      (pyOr (dget tool "inputSchema") (dget tool "parameters"))).getD (.obj [])
  let schemaFields :=
    match rawSchema with
    | .obj fs => fs
    | _ => [("type", .str "object"), ("properties", .obj [])]
  let schemaFields :=
    if (dget schemaFields "type").isSome then schemaFields
    else dset schemaFields "type" (.str "object")
  let schemaFields :=
    if (dget schemaFields "properties").isSome then schemaFields
    else dset schemaFields "properties" (.obj [])
  ⟨name, description, .obj schemaFields⟩

/-- `_tool_to_anthropic` (tools.py lines 103–123) on a dict-shaped item:
new-SDK nested shape is unpacked directly, flat dicts go through
`_convert_to_anthropic_format`. -/
def tool_to_anthropic (tool : RawTool) : AnthropicTool :=
  match dget tool "function" with
  | some (.obj func) =>
    ⟨dgetStr func "name" "unknown",
     dgetStr func "description" "",
     (dget func "parameters").getD emptySchema⟩
  | _ => convert_to_anthropic_format tool

/-- One execution of the body of `get_google_meet_tools` (inside its `@retry`
decorator).  `meetFetch` / `driveFetch` are the outcomes of the two
`_get_tools_for_app` calls (`.error` = the raised exception's message).  A
failing primary fetch is wrapped into a `ComposioConnectionError`; a failing
drive fetch is swallowed. -/
def getGoogleMeetToolsOnce (meetFetch : Except String (List RawTool))
    (driveFetch : Except String (List RawTool)) (include_drive : Bool) :
    Except AgentError (List AnthropicTool) :=
  match meetFetch with
  | .error e =>
    .error (.composioConnectionError ("Failed to fetch tools: " ++ e))
  | .ok meet_tool_list =>
    let anthropic_tools := meet_tool_list.map tool_to_anthropic
    if include_drive then
      match driveFetch with
      | .error _ => .ok anthropic_tools
      | .ok drive_tool_list =>
        let kept := drive_tool_list.filter (fun t =>
          let n := get_tool_name t
          n ≠ "" && GOOGLEDRIVE_TOOLS_FOR_NOTES.contains n)
        .ok (anthropic_tools ++ kept.map tool_to_anthropic)
    else
      .ok anthropic_tools

/-- Modelled from the spec ordering sentence for comparison with the code:
the descriptors in catalog order, all meeting-query operations first, then
the allow-listed file operations, no deduplication and no sorting. -/
def specOrderedCatalog (meetList driveList : List RawTool) : List AnthropicTool :=
  meetList.map tool_to_anthropic ++
    (driveList.filter (fun t =>
      let n := get_tool_name t
      n ≠ "" && GOOGLEDRIVE_TOOLS_FOR_NOTES.contains n)).map tool_to_anthropic

/-- Environment of one attempt of the `get_google_meet_tools` body. -/
structure CatalogEnv where
  meetFetch : Except String (List RawTool)
  driveFetch : Except String (List RawTool)

/-- `get_google_meet_tools`: the body wrapped in the same `@retry` decorator
shape as the invoker (`retry_if_exception_type(ComposioConnectionError)` —
which `retryableException` also satisfies on every error this body can
produce, since the body only raises `ComposioConnectionError`). -/
def get_google_meet_tools (envs : Nat → CatalogEnv) (include_drive : Bool) :
    RetryTrace (List AnthropicTool) :=
  tenacityRun (fun e => match e with
      | .composioConnectionError _ => true
      | _ => false)
    (fun k => getGoogleMeetToolsOnce (envs k).meetFetch (envs k).driveFetch
      include_drive) 1 3

/-! ## The conversation loop (agent.py) -/

/-- A content block of a model response (anthropic SDK): a text block or a
tool-invocation request carrying a correlation id, a tool name and input. -/
inductive Block where
  | text (t : String)
  | toolUse (id : String) (name : String) (input : Json)
deriving Repr

/-- `response.stop_reason`. -/
inductive StopReason where
  | tool_use
  | end_turn
  | other (s : String)
deriving Repr

/-- A model response: stop reason plus content blocks. -/
structure ModelResponse where
  stop_reason : StopReason
  content : List Block
deriving Repr

/-- A tool-result block fed back to the model, tagged with the originating
request's `tool_use_id`. -/
structure ToolResultBlock where
  tool_use_id : String
  content : String
deriving Repr

/-- A transcript message: the user prompt, an appended assistant response, or
the user message carrying a turn's tool results. -/
inductive Message where
  | userText (s : String)
  | assistant (content : List Block)
  | userResults (results : List ToolResultBlock)
deriving Repr

/-- The oracle for `self._anthropic_client.messages.create`: the next model
response given the transcript so far (`.error` = a raised exception). -/
abbrev ModelOracle := List Message → Except AgentError ModelResponse

/-- The oracle for what `execute_google_meet_tool` returns (or raises) for a
given tool name and input. -/
abbrev ToolOracle := String → Json → Except AgentError Json

/-- `_execute_tool` (agent.py lines 203–226): serialize a successful result
with `json.dumps`, catch any exception and serialize the
`{"error": type-name, "message": str(e)}` envelope instead.  Always returns a
string, never raises. -/
def execute_tool (tools : ToolOracle) (tool_name : String) (tool_input : Json) :
    String :=
  match tools tool_name tool_input with
  | .ok result => jsonDumps result
  | .error e =>
    jsonDumps (.obj [("error", .str e.typeName), ("message", .str e.message)])

/-- The fixed sentinel `_run_agent_loop` returns when the `for` loop ends
without the model signalling completion (agent.py line 286). -/
def maxTurnsSentinel : String := "Max turns reached without completing the task."

/-- The tool-result blocks one `tool_use` turn produces (agent.py lines
260–269): every `tool_use` block of the assistant content, executed in
order, each result tagged with the id of the originating request. -/
def turnToolResults (tools : ToolOracle) (content : List Block) :
    List ToolResultBlock :=
  content.filterMap (fun b =>
    match b with
    | .toolUse id name input => some ⟨id, execute_tool tools name input⟩
    | .text _ => none)

/-- Trace of one `_run_agent_loop` run: the returned string (`.error` = an
exception that escaped the loop, e.g. from `messages.create`), the number of
model round-trips performed, and the `messages` list at exit. -/
structure LoopTrace where
  result : Except AgentError String
  modelCalls : Nat
  transcript : List Message
deriving Repr

/-- The body of `_run_agent_loop`'s `for turn in range(max_turns)` loop
(agent.py lines 240–286), recursing on the remaining turn budget.
On `tool_use`: append the assistant message, execute every `tool_use` block
in order through `_execute_tool`, append one user message with all results,
continue.  On `end_turn`: return the newline-joined text blocks.  On any
other stop reason: `break`, which falls through to the sentinel. -/
def agentLoopGo (model : ModelOracle) (tools : ToolOracle) :
    List Message → Nat → LoopTrace
  | messages, 0 => ⟨.ok maxTurnsSentinel, 0, messages⟩
  | messages, n + 1 =>
    match model messages with
    | .error e => ⟨.error e, 1, messages⟩
    | .ok response =>
      match response.stop_reason with
      | .tool_use =>
        let messages1 := messages ++ [Message.assistant response.content]
        let tool_results := turnToolResults tools response.content
        let messages2 := messages1 ++ [Message.userResults tool_results]
        let rest := agentLoopGo model tools messages2 n
        ⟨rest.result, rest.modelCalls + 1, rest.transcript⟩
      | .end_turn =>
        let text_blocks := response.content.filterMap (fun b =>
          match b with
          | .text t => some t
          | .toolUse _ _ _ => none)
        ⟨.ok (String.intercalate "\n" text_blocks), 1, messages⟩
      | .other _ => ⟨.ok maxTurnsSentinel, 1, messages⟩

/-- `_run_agent_loop` (agent.py lines 228–286): start from
`[{"role": "user", "content": prompt}]` and run up to `max_turns` turns. -/
def run_agent_loop (model : ModelOracle) (tools : ToolOracle) (prompt : String)
    (max_turns : Nat) : LoopTrace :=
  agentLoopGo model tools [Message.userText prompt] max_turns

/-! ## query (agent.py lines 288–336) -/

/-- `Settings` (config.py): the fields the loop and query consult, with their
declared defaults. -/
structure Settings where
  agent_max_turns : Nat := 10
  oauth_timeout : Nat := 300
  max_retries : Nat := 3
deriving Repr

/-- `AgentResponse` (agent.py lines 88–95), minus the redundant
`raw_response` convenience copy. -/
structure AgentResponse where
  success : Bool
  data : Option String
  error : Option String
deriving Repr

/-- The error string `query` stores for each `except` arm (agent.py lines
313–336): `GoogleMeetAgentError` subclasses verbatim, anthropic API errors
and everything else with a fixed prefix. -/
def queryErrorString (e : AgentError) : String :=
  if e.isAgentFamily then e.message
  else
    match e with
    | .anthropicAPIError m => "Claude API error: " ++ m
    | _ => "Unexpected error: " ++ e.message

/-- `query` (agent.py lines 288–336).  `is_setup` and `setupOutcome` model
`_ensure_setup`: when the agent is not yet set up, `setup()` runs *outside*
the `try` block and its exception (if any) propagates out of `query`.
Inside the `try`, every exception from the loop is converted into a
`success=False` response.  `max_turns or settings.agent_max_turns` treats
both `None` and `0` as absent. -/
def query (is_setup : Bool) (setupOutcome : Except AgentError Unit)
    (settings : Settings) (model : ModelOracle) (tools : ToolOracle)
    (user_message : String) (max_turns : Option Nat) :
    Except AgentError AgentResponse :=
  match (if is_setup then Except.ok () else setupOutcome) with
  | .error e => .error e
  | .ok () =>
    let maxTurns :=
      match max_turns with
      | some m => if m = 0 then settings.agent_max_turns else m
      | none => settings.agent_max_turns
    .ok (match (run_agent_loop model tools user_message maxTurns).result with
      | .ok result => ⟨true, some result, none⟩
      | .error e => ⟨false, none, some (queryErrorString e)⟩)

/-! ## Helper lemmas about the dict operations -/

theorem dget_dset_self (l : List (String × Json)) (k : String) (v : Json) :
    dget (dset l k v) k = some v := by
  induction l with
  | nil => simp [dset, dget]
  | cons p rest ih =>
    obtain ⟨k', v'⟩ := p
    by_cases h : k' = k
    · simp [dset, h, dget]
    · simp [dset, h, dget, ih]

theorem dget_dset_of_ne (l : List (String × Json)) (k k' : String) (v : Json)
    (h : k' ≠ k) : dget (dset l k' v) k = dget l k := by
  induction l with
  | nil => simp [dset, dget, h]
  | cons p rest ih =>
    obtain ⟨k₀, v₀⟩ := p
    by_cases h0 : k₀ = k'
    · subst h0
      simp [dset, dget, h]
    · by_cases h1 : k₀ = k
      · subst h1
        simp [dset, dget, h0]
      · simp [dset, h0, dget, h1, ih]

theorem dget_eq_none_of_not_mem (l : List (String × Json)) (k : String)
    (h : k ∉ l.map Prod.fst) : dget l k = none := by
  induction l with
  | nil => simp [dget]
  | cons p rest ih =>
    obtain ⟨k', v'⟩ := p
    simp only [List.map_cons, List.mem_cons] at h
    push_neg at h
    have hne : ¬ k' = k := fun he => h.1 he.symm
    simp [dget, hne, ih h.2]

theorem dget_derase_self (l : List (String × Json)) (k : String)
    (h : (l.map Prod.fst).Nodup) : dget (derase l k) k = none := by
  induction l with
  | nil => simp [derase, dget]
  | cons p rest ih =>
    obtain ⟨k', v'⟩ := p
    simp only [List.map_cons, List.nodup_cons] at h
    by_cases hk : k' = k
    · subst hk
      simp only [derase, if_pos rfl]
      exact dget_eq_none_of_not_mem rest k' h.1
    · simp [derase, hk, dget, ih h.2]

/-! ## Helper lemmas about strings and the retry combinator -/

theorem charsStart_append (pre rest : List Char) :
    charsStart pre (pre ++ rest) = true := by
  induction pre with
  | nil => simp [charsStart]
  | cons c cs ih => simp [charsStart, ih]

theorem strStarts_append (pre rest : String) :
    strStarts pre (pre ++ rest) = true := by
  unfold strStarts
  rw [String.data_append]
  exact charsStart_append pre.data rest.data

theorem tenacityRun_attempts_le {α : Type} (retryable : AgentError → Bool)
    (attempts : Nat → Except AgentError α) (attemptNo remaining : Nat) :
    (tenacityRun retryable attempts attemptNo (remaining + 1)).attemptsMade ≤
      remaining + 1 := by
  induction remaining generalizing attemptNo with
  | zero => simp [tenacityRun]
  | succ r ih =>
    simp only [tenacityRun]
    cases attempts attemptNo with
    | ok a => simp
    | error e =>
      by_cases hr : retryable e
      · simpa [hr] using Nat.succ_le_succ (ih (attemptNo + 1))
      · simp [hr]

theorem tenacityRun_nonretryable {α : Type} (retryable : AgentError → Bool)
    (attempts : Nat → Except AgentError α) (e : AgentError)
    (h1 : attempts 1 = .error e) (h2 : retryable e = false) :
    tenacityRun retryable attempts 1 3 = ⟨.error e, 1, []⟩ := by
  simp [tenacityRun, h1, h2]

theorem tenacityRun_all_retryable_fail {α : Type} (retryable : AgentError → Bool)
    (attempts : Nat → Except AgentError α) (errs : Nat → AgentError)
    (h : ∀ k, attempts k = .error (errs k)) (hr : ∀ k, retryable (errs k) = true) :
    tenacityRun retryable attempts 1 3 =
      ⟨.error (errs 3), 3, [retryDelay 1, retryDelay 2]⟩ := by
  simp [tenacityRun, h 1, h 2, h 3, hr 1, hr 2]

theorem retryDelay_pos (n : Nat) : 1 ≤ retryDelay n :=
  Nat.le_max_left 1 _

theorem retryDelay_le_ten (n : Nat) : retryDelay n ≤ 10 := by
  unfold retryDelay wait_exponential
  exact Nat.max_le.mpr ⟨by norm_num, Nat.min_le_right _ _⟩

theorem retryDelay_mono {n m : Nat} (h : n ≤ m) : retryDelay n ≤ retryDelay m := by
  unfold retryDelay wait_exponential
  have hp : 2 ^ (n - 1) ≤ 2 ^ (m - 1) :=
    Nat.pow_le_pow_right (by norm_num) (Nat.sub_le_sub_right h 1)
  exact max_le_max (le_refl 1) (min_le_min (by simpa using hp) (le_refl 10))

/-! ## Helper lemmas about the download special case -/

theorem downloadPostProcess_spec (fo : FetchOutcome)
    (data downloaded : List (String × Json)) (u : String)
    (hd : dget data "downloaded_file_content" = some (.obj downloaded))
    (hs : dget downloaded "s3url" = some (.str u)) (hu : u ≠ "") :
    downloadPostProcess fo data = .ok
      (dset (dset (dset data "file_content"
          (.str (fetch_file_content_from_url fo)))
        "content_fetched" (.bool true))
        "downloaded_file_content" (.obj (derase downloaded "s3url"))) := by
  have hguard :
      dget (dset (dset data "file_content"
          (.str (fetch_file_content_from_url fo)))
        "content_fetched" (.bool true)) "downloaded_file_content" =
        some (.obj downloaded) := by
    rw [dget_dset_of_ne _ _ _ _ (by decide), dget_dset_of_ne _ _ _ _ (by decide)]
    exact hd
  simp only [downloadPostProcess, hd, hs]
  rw [if_pos hu]
  simp [hguard]

theorem executeTool_download_spec (env : ExecEnv) (acct : String)
    (fields dataFields downloaded : List (String × Json)) (u : String)
    (hacct : env.connectedAccount = some acct)
    (hexec : env.execOutcome = .ok (.dict fields))
    (hdata : dget fields "data" = some (.obj dataFields))
    (herr : dget fields "error" = none)
    (hd : dget dataFields "downloaded_file_content" = some (.obj downloaded))
    (hs : dget downloaded "s3url" = some (.str u)) (hu : u ≠ "") :
    executeToolOnce "GOOGLEDRIVE_DOWNLOAD_FILE" env = .ok (.obj
      [("success", .bool true),
       ("data", .obj (dset (dset (dset dataFields "file_content"
            (.str (fetch_file_content_from_url env.fetchOutcome)))
          "content_fetched" (.bool true))
          "downloaded_file_content" (.obj (derase downloaded "s3url"))))]) := by
  have hpost := downloadPostProcess_spec env.fetchOutcome dataFields downloaded u hd hs hu
  simp [executeToolOnce, hacct, hexec, hdata, herr, executeToolDownloadStep, hpost]

/-! ## Helper lemmas about the conversation loop -/

theorem agentLoopGo_calls_le (model : ModelOracle) (tools : ToolOracle)
    (messages : List Message) (n : Nat) :
    (agentLoopGo model tools messages n).modelCalls ≤ n := by
  induction n generalizing messages with
  | zero => simp [agentLoopGo]
  | succ n ih =>
    simp only [agentLoopGo]
    cases model messages with
    | error e => simp
    | ok resp =>
      cases hs : resp.stop_reason with
      | tool_use =>
        simpa [hs] using Nat.succ_le_succ
          (ih (messages ++ [Message.assistant resp.content,
            Message.userResults (turnToolResults tools resp.content)]))
      | end_turn => simp [hs]
      | other s => simp [hs]

theorem agentLoopGo_always_tool_use (model : ModelOracle) (tools : ToolOracle)
    (h : ∀ ms, ∃ resp, model ms = .ok resp ∧ resp.stop_reason = .tool_use)
    (messages : List Message) (n : Nat) :
    (agentLoopGo model tools messages n).result = .ok maxTurnsSentinel := by
  induction n generalizing messages with
  | zero => rfl
  | succ n ih =>
    obtain ⟨resp, hm, hs⟩ := h messages
    simp only [agentLoopGo, hm, hs]
    exact ih _

theorem agentLoopGo_transcript_chunks (model : ModelOracle) (tools : ToolOracle)
    (messages : List Message) (n : Nat) :
    ∃ chunks : List (List Block × List ToolResultBlock),
      (agentLoopGo model tools messages n).transcript =
        messages ++ chunks.flatMap (fun c =>
          [Message.assistant c.1, Message.userResults c.2]) := by
  induction n generalizing messages with
  | zero => exact ⟨[], by simp [agentLoopGo]⟩
  | succ n ih =>
    cases hm : model messages with
    | error e => exact ⟨[], by simp [agentLoopGo, hm]⟩
    | ok resp =>
      cases hs : resp.stop_reason with
      | tool_use =>
        obtain ⟨chunks, hc⟩ := ih (messages ++
          [Message.assistant resp.content,
           Message.userResults (turnToolResults tools resp.content)])
        refine ⟨(resp.content, turnToolResults tools resp.content) :: chunks, ?_⟩
        simp only [agentLoopGo, hm, hs]
        simpa [List.append_assoc] using hc
      | end_turn => exact ⟨[], by simp [agentLoopGo, hm, hs]⟩
      | other s => exact ⟨[], by simp [agentLoopGo, hm, hs]⟩

/-! ## The claims -/

/-- C1: the Tool Invoker makes up to 3 attempts; its retry predicate accepts
exactly the connection-class and rate-limit-class exceptions; a non-retryable
failure (permission, not-found, generic remote-API) propagates after a single
attempt with no sleeps; three consecutive connection-class failures exhaust
exactly 3 attempts with the delays of failed attempts 1 and 2 before the
error propagates; and those delays follow the exponential schedule clamped to
[1s, 10s], starting at 1s, non-decreasing. -/
theorem C1_retry_policy :
    (∀ e : AgentError, retryableException e = true ↔
      ((∃ m, e = .composioConnectionError m) ∨ (∃ m, e = .rateLimitError m))) ∧
    (∀ (tool_slug : String) (envs : Nat → ExecEnv),
      (execute_google_meet_tool tool_slug envs).attemptsMade ≤ 3) ∧
    (∀ (tool_slug : String) (envs : Nat → ExecEnv) (e : AgentError),
      executeToolOnce tool_slug (envs 1) = .error e →
      retryableException e = false →
      execute_google_meet_tool tool_slug envs = ⟨.error e, 1, []⟩) ∧
    (∀ (attempts : Nat → Except AgentError Json) (msgs : Nat → String),
      (∀ k, attempts k = .error (.composioConnectionError (msgs k))) →
      tenacityRun retryableException attempts 1 3 =
        ⟨.error (.composioConnectionError (msgs 3)), 3,
          [retryDelay 1, retryDelay 2]⟩) ∧
    ([retryDelay 1, retryDelay 2] = [1, 2]) ∧
    (∀ n, 1 ≤ retryDelay n ∧ retryDelay n ≤ 10) ∧
    (∀ n m, n ≤ m → retryDelay n ≤ retryDelay m) := by
  refine ⟨?_, ?_, ?_, ?_, by decide, ?_, ?_⟩
  · intro e
    cases e <;> simp [retryableException]
  · intro tool_slug envs
    exact tenacityRun_attempts_le _ _ 1 2
  · intro tool_slug envs e h1 h2
    exact tenacityRun_nonretryable _ _ e h1 h2
  · intro attempts msgs h
    exact tenacityRun_all_retryable_fail _ _ _ h (fun _ => rfl)
  · intro n
    exact ⟨retryDelay_pos n, retryDelay_le_ten n⟩
  · intro n m h
    exact retryDelay_mono h

/-- Witness for C1: a permission failure runs once without retrying, and
three consecutive connection-class failures run exactly three attempts. -/
theorem C1_retry_policy_witness :
    execute_google_meet_tool "GOOGLEMEET_LIST_CONFERENCE_RECORDS"
      (fun _ => ⟨some "acct", .error "HTTP 403 Forbidden", .body []⟩) =
      ⟨.error (.googleMeetAPIError
        "Permission denied. Ensure you have a Google Workspace account with Meet API access."
        (some 403)), 1, []⟩ ∧
    tenacityRun retryableException
      (fun _ => (.error (.composioConnectionError "connection refused") :
        Except AgentError Json)) 1 3 =
      ⟨.error (.composioConnectionError "connection refused"), 3,
        [retryDelay 1, retryDelay 2]⟩ := by
  constructor
  · exact C1_retry_policy.2.2.1 _ _ _ (by rfl) (by rfl)
  · exact C1_retry_policy.2.2.2.1 _ (fun _ => "connection refused")
      (fun _ => rfl)

/-- C2: on a successful load, the catalog is exactly every meeting-query
item followed by the allow-listed file items, in catalog order, with no
deduplication and no sorting; every meeting-query item of the catalog is
covered (so any expected meeting operation the remote returns appears), and
the kept file items are exactly those on the fixed allow-list. -/
theorem C2_catalog_order (meetList driveList : List RawTool) :
    getGoogleMeetToolsOnce (.ok meetList) (.ok driveList) true =
      .ok (specOrderedCatalog meetList driveList) ∧
    (∀ t ∈ meetList,
      tool_to_anthropic t ∈ specOrderedCatalog meetList driveList) ∧
    (∀ name, name ∈ EXPECTED_MEET_TOOLS →
      (∃ t ∈ meetList, (tool_to_anthropic t).name = name) →
      name ∈ (specOrderedCatalog meetList driveList).map AnthropicTool.name) ∧
    (∀ t ∈ driveList,
      get_tool_name t ≠ "" → get_tool_name t ∈ GOOGLEDRIVE_TOOLS_FOR_NOTES →
      tool_to_anthropic t ∈ specOrderedCatalog meetList driveList) := by
  refine ⟨rfl, ?_, ?_, ?_⟩
  · intro t ht
    exact List.mem_append_left _ (List.mem_map_of_mem _ ht)
  · rintro name _ ⟨t, ht, hn⟩
    exact hn ▸ List.mem_map_of_mem AnthropicTool.name
      (List.mem_append_left _ (List.mem_map_of_mem _ ht))
  · intro t ht h1 h2
    refine List.mem_append_right _ (List.mem_map_of_mem _ ?_)
    rw [List.mem_filter]
    refine ⟨ht, ?_⟩
    simp only [Bool.and_eq_true, decide_eq_true_eq]
    exact ⟨h1, by simpa using h2⟩

/-- Witness for C2 at a concrete catalog. -/
theorem C2_catalog_order_witness :
    ("GOOGLEMEET_LIST_CONFERENCE_RECORDS" ∈
      (specOrderedCatalog [[("name", .str "GOOGLEMEET_LIST_CONFERENCE_RECORDS")]]
        [[("name", .str "GOOGLEDRIVE_LIST_FILES")]]).map AnthropicTool.name) ∧
    (tool_to_anthropic [("name", .str "GOOGLEDRIVE_LIST_FILES")] ∈
      specOrderedCatalog [[("name", .str "GOOGLEMEET_LIST_CONFERENCE_RECORDS")]]
        [[("name", .str "GOOGLEDRIVE_LIST_FILES")]]) := by
  constructor
  · exact (C2_catalog_order _ _).2.2.1 "GOOGLEMEET_LIST_CONFERENCE_RECORDS"
      (by decide) ⟨[("name", .str "GOOGLEMEET_LIST_CONFERENCE_RECORDS")],
        by simp, by rfl⟩
  · exact (C2_catalog_order _ _).2.2.2 [("name", .str "GOOGLEDRIVE_LIST_FILES")]
      (by simp) (by decide) (by decide)

/-- C3: the conversation loop performs at most `max_turns` model
round-trips; with a model that always requests a tool the loop returns the
fixed sentinel instead of failing or diverging; the configured default turn
budget is 10. -/
theorem C3_turn_budget :
    (∀ (model : ModelOracle) (tools : ToolOracle) (prompt : String) (n : Nat),
      (run_agent_loop model tools prompt n).modelCalls ≤ n) ∧
    (∀ (model : ModelOracle) (tools : ToolOracle) (prompt : String) (n : Nat),
      (∀ ms, ∃ resp, model ms = .ok resp ∧ resp.stop_reason = .tool_use) →
      (run_agent_loop model tools prompt n).result = .ok maxTurnsSentinel) ∧
    ({ } : Settings).agent_max_turns = 10 := by
  refine ⟨?_, ?_, rfl⟩
  · intro model tools prompt n
    exact agentLoopGo_calls_le model tools _ n
  · intro model tools prompt n h
    exact agentLoopGo_always_tool_use model tools h _ n

/-- Witness for C3: max_turns = 1 with an always-tool-requesting model. -/
theorem C3_turn_budget_witness :
    (run_agent_loop (fun _ => .ok ⟨.tool_use, [.toolUse "t1" "X" .null]⟩)
      (fun _ _ => .ok .null) "q" 1).result = .ok maxTurnsSentinel :=
  C3_turn_budget.2.1 _ _ "q" 1 (fun _ => ⟨_, rfl, rfl⟩)

/-- C4 counterexample: a call to `query` on a not-yet-set-up agent whose
implicit `setup()` raises does not return an `AgentResponse`; the exception
escapes `query` because `_ensure_setup` runs before the `try` block. -/
theorem C4_counterexample :
    query false (.error (.authConfigNotFoundError "No Google Meet auth config found."))
      { } (fun _ => .ok ⟨.end_turn, [.text "hi"]⟩) (fun _ _ => .ok .null)
      "q" none =
    .error (.authConfigNotFoundError "No Google Meet auth config found.") := rfl

/-- C4 (amended): whenever the implicit setup does not raise (the agent is
already set up, or `setup()` succeeds), `query` returns an `AgentResponse`
and never raises; on success `data` is set and `error` is `None`, on failure
`data` is `None` and `error` is set — every error from the conversation loop
is caught and converted. -/
theorem C4_query_result_exclusive (is_setup : Bool)
    (setupOutcome : Except AgentError Unit) (settings : Settings)
    (model : ModelOracle) (tools : ToolOracle) (msg : String)
    (mt : Option Nat) (hsetup : is_setup = true ∨ setupOutcome = .ok ()) :
    ∃ r : AgentResponse,
      query is_setup setupOutcome settings model tools msg mt = .ok r ∧
      (r.success = true → r.data.isSome ∧ r.error = none) ∧
      (r.success = false → r.data = none ∧ r.error.isSome) := by
  have hok : (if is_setup then Except.ok () else setupOutcome) = .ok () := by
    rcases hsetup with h | h
    · simp [h]
    · cases is_setup <;> simp [h]
  simp only [query, hok]
  cases (run_agent_loop model tools msg _).result with
  | ok s => exact ⟨⟨true, some s, none⟩, rfl, fun _ => ⟨rfl, rfl⟩, by simp⟩
  | error e =>
    exact ⟨⟨false, none, some (queryErrorString e)⟩, rfl, by simp,
      fun _ => ⟨rfl, rfl⟩⟩

/-- Witness for C4 on a set-up agent whose loop finishes immediately. -/
theorem C4_query_result_exclusive_witness :
    ∃ r : AgentResponse,
      query true (.ok ()) { } (fun _ => .ok ⟨.end_turn, [.text "hi"]⟩)
        (fun _ _ => .ok .null) "q" none = .ok r ∧
      (r.success = true → r.data.isSome ∧ r.error = none) ∧
      (r.success = false → r.data = none ∧ r.error.isSome) :=
  C4_query_result_exclusive true (.ok ()) { } _ _ "q" none (Or.inl rfl)

/-- C5: when a file-download invocation succeeds and its raw `data` payload
carries a `downloaded_file_content` dict with a non-empty temporary `s3url`,
the invoker dereferences the location (decoding UTF-8 with Latin-1
fallback), injects the text under `file_content`, marks `content_fetched`,
and strips `s3url` from the nested dict — so the final payload carries the
decoded text and (keys being unique in a Python dict) no temporary
location. -/
theorem C5_download_round_trip (env : ExecEnv) (acct : String)
    (fields dataFields downloaded : List (String × Json)) (u : String)
    (hacct : env.connectedAccount = some acct)
    (hexec : env.execOutcome = .ok (.dict fields))
    (hdata : dget fields "data" = some (.obj dataFields))
    (herr : dget fields "error" = none)
    (hd : dget dataFields "downloaded_file_content" = some (.obj downloaded))
    (hs : dget downloaded "s3url" = some (.str u)) (hu : u ≠ "")
    (hnodup : (downloaded.map Prod.fst).Nodup) :
    ∃ finalData : List (String × Json),
      executeToolOnce "GOOGLEDRIVE_DOWNLOAD_FILE" env =
        .ok (.obj [("success", .bool true), ("data", .obj finalData)]) ∧
      dget finalData "file_content" =
        some (.str (fetch_file_content_from_url env.fetchOutcome)) ∧
      dget finalData "content_fetched" = some (.bool true) ∧
      dget finalData "downloaded_file_content" =
        some (.obj (derase downloaded "s3url")) ∧
      dget (derase downloaded "s3url") "s3url" = none ∧
      (∀ bytes, env.fetchOutcome = .body bytes →
        fetch_file_content_from_url env.fetchOutcome =
          match utf8Decode bytes with
          | some cs => String.mk cs
          | none => latin1Decode bytes) := by
  refine ⟨_, executeTool_download_spec env acct fields dataFields downloaded u
    hacct hexec hdata herr hd hs hu, ?_, ?_, ?_,
    dget_derase_self downloaded "s3url" hnodup, ?_⟩
  · rw [dget_dset_of_ne _ "file_content" "downloaded_file_content" _ (by decide),
      dget_dset_of_ne _ "file_content" "content_fetched" _ (by decide)]
    exact dget_dset_self _ _ _
  · rw [dget_dset_of_ne _ "content_fetched" "downloaded_file_content" _ (by decide)]
    exact dget_dset_self _ _ _
  · exact dget_dset_self _ _ _
  · intro bytes hb
    rw [hb]
    cases h : utf8Decode bytes <;> simp [fetch_file_content_from_url, h]

/-- Witness for C5 at a concrete raw result ("Hi" as UTF-8 bytes). -/
theorem C5_download_round_trip_witness :
    ∃ finalData : List (String × Json),
      executeToolOnce "GOOGLEDRIVE_DOWNLOAD_FILE"
        ⟨some "acct", .ok (.dict [("data", .obj
          [("downloaded_file_content", .obj [("s3url", .str "http://tmp")])])]),
          .body [72, 105]⟩ =
        .ok (.obj [("success", .bool true), ("data", .obj finalData)]) ∧
      dget finalData "file_content" =
        some (.str (fetch_file_content_from_url (.body [72, 105]))) ∧
      dget finalData "content_fetched" = some (.bool true) ∧
      dget finalData "downloaded_file_content" =
        some (.obj (derase [("s3url", .str "http://tmp")] "s3url")) ∧
      dget (derase [("s3url", .str "http://tmp")] "s3url") "s3url" = none ∧
      (∀ bytes, (FetchOutcome.body [72, 105] : FetchOutcome) = .body bytes →
        fetch_file_content_from_url (.body [72, 105]) =
          match utf8Decode bytes with
          | some cs => String.mk cs
          | none => latin1Decode bytes) :=
  C5_download_round_trip
    ⟨some "acct", .ok (.dict [("data", .obj
      [("downloaded_file_content", .obj [("s3url", .str "http://tmp")])])]),
      .body [72, 105]⟩
    "acct" [("data", .obj [("downloaded_file_content",
      .obj [("s3url", .str "http://tmp")])])]
    [("downloaded_file_content", .obj [("s3url", .str "http://tmp")])]
    [("s3url", .str "http://tmp")] "http://tmp"
    rfl rfl rfl rfl rfl rfl (by decide) (by simp)

/-- C6: failure classification follows the source order on the lowered
message — no connected account yields the 401 auth error (and
`GoogleMeetAPIError` is never retried); an exception from the SDK call is
classified by substring tests with rate-limit indicators first, then
permission/403, then not-found/404, then the generic remote-API error. -/
theorem C6_classification_priority (tool_slug : String) (env : ExecEnv)
    (rawMsg acct : String) :
    (env.connectedAccount = none →
      executeToolOnce tool_slug env = .error (.googleMeetAPIError
        (if strStarts "GOOGLEDRIVE_" tool_slug then
          "No active Google Drive connection found. Please set up Google Drive integration."
        else
          "No active Google Meet connection found. Please run setup first.")
        (some 401))) ∧
    (∀ m sc, retryableException (.googleMeetAPIError m sc) = false) ∧
    (env.connectedAccount = some acct → env.execOutcome = .error rawMsg →
      executeToolOnce tool_slug env =
        .error (classifyExecError tool_slug rawMsg)) ∧
    ((strIn "429" (strLower rawMsg) || strIn "rate limit" (strLower rawMsg)) = true →
      classifyExecError tool_slug rawMsg = .rateLimitError rateLimitDefaultMessage ∧
      retryableException (.rateLimitError rateLimitDefaultMessage) = true) ∧
    ((strIn "429" (strLower rawMsg) || strIn "rate limit" (strLower rawMsg)) = false →
      (strIn "403" (strLower rawMsg) || strIn "permission" (strLower rawMsg)) = true →
      classifyExecError tool_slug rawMsg = .googleMeetAPIError
        "Permission denied. Ensure you have a Google Workspace account with Meet API access."
        (some 403)) ∧
    ((strIn "429" (strLower rawMsg) || strIn "rate limit" (strLower rawMsg)) = false →
      (strIn "403" (strLower rawMsg) || strIn "permission" (strLower rawMsg)) = false →
      (strIn "404" (strLower rawMsg) || strIn "not found" (strLower rawMsg)) = true →
      classifyExecError tool_slug rawMsg =
        .googleMeetAPIError ("Resource not found: " ++ tool_slug) (some 404)) ∧
    ((strIn "429" (strLower rawMsg) || strIn "rate limit" (strLower rawMsg)) = false →
      (strIn "403" (strLower rawMsg) || strIn "permission" (strLower rawMsg)) = false →
      (strIn "404" (strLower rawMsg) || strIn "not found" (strLower rawMsg)) = false →
      classifyExecError tool_slug rawMsg = .googleMeetAPIError
        ("Failed to execute " ++ tool_slug ++ ": " ++ rawMsg) none) := by
  refine ⟨?_, fun m sc => rfl, ?_, ?_, ?_, ?_, ?_⟩
  · intro h
    cases hgd : strStarts "GOOGLEDRIVE_" tool_slug <;>
      simp [executeToolOnce, h, hgd]
  · intro h1 h2
    simp [executeToolOnce, h1, h2]
  · intro h1
    exact ⟨by simp [classifyExecError, h1], rfl⟩
  · intro h1 h2
    simp [classifyExecError, h1, h2]
  · intro h1 h2 h3
    simp [classifyExecError, h1, h2, h3]
  · intro h1 h2 h3
    simp [classifyExecError, h1, h2, h3]

/-- Witness for C6: an account-less drive call, and one message for each
classification rule. -/
theorem C6_classification_priority_witness :
    executeToolOnce "GOOGLEDRIVE_LIST_FILES" ⟨none, .ok (.nonDict "x"), .body []⟩ =
      .error (.googleMeetAPIError
        (if strStarts "GOOGLEDRIVE_" "GOOGLEDRIVE_LIST_FILES" then
          "No active Google Drive connection found. Please set up Google Drive integration."
        else
          "No active Google Meet connection found. Please run setup first.")
        (some 401)) ∧
    classifyExecError "T" "HTTP 429 Too Many Requests" =
      .rateLimitError rateLimitDefaultMessage ∧
    classifyExecError "T" "403 Forbidden" = .googleMeetAPIError
      "Permission denied. Ensure you have a Google Workspace account with Meet API access."
      (some 403) ∧
    classifyExecError "T" "thing was Not Found" =
      .googleMeetAPIError ("Resource not found: " ++ "T") (some 404) ∧
    classifyExecError "T" "boom" =
      .googleMeetAPIError ("Failed to execute " ++ "T" ++ ": " ++ "boom") none := by
  refine ⟨?_, ?_, ?_, ?_, ?_⟩
  · exact (C6_classification_priority "GOOGLEDRIVE_LIST_FILES"
      ⟨none, .ok (.nonDict "x"), .body []⟩ "" "").1 rfl
  · exact ((C6_classification_priority "T" ⟨none, .ok (.nonDict "x"), .body []⟩
      "HTTP 429 Too Many Requests" "").2.2.2.1 (by decide)).1
  · exact (C6_classification_priority "T" ⟨none, .ok (.nonDict "x"), .body []⟩
      "403 Forbidden" "").2.2.2.2.1 (by decide) (by decide)
  · exact (C6_classification_priority "T" ⟨none, .ok (.nonDict "x"), .body []⟩
      "thing was Not Found" "").2.2.2.2.2.1 (by decide) (by decide) (by decide)
  · exact (C6_classification_priority "T" ⟨none, .ok (.nonDict "x"), .body []⟩
      "boom" "").2.2.2.2.2.2 (by decide) (by decide) (by decide)

/-- C7: a catalog load fails exactly when the primary meeting-query fetch
fails, always with a connection-error kind; a failing optional drive fetch
alone still succeeds with only the meeting-query operations. -/
theorem C7_catalog_fails_iff_primary (meetFetch driveFetch : Except String (List RawTool))
    (include_drive : Bool) :
    ((∃ e, getGoogleMeetToolsOnce meetFetch driveFetch include_drive = .error e) ↔
      (∃ m, meetFetch = .error m)) ∧
    (∀ e, getGoogleMeetToolsOnce meetFetch driveFetch include_drive = .error e →
      ∃ m, e = .composioConnectionError m) ∧
    (∀ (meetList : List RawTool) (dmsg : String),
      getGoogleMeetToolsOnce (.ok meetList) (.error dmsg) true =
        .ok (meetList.map tool_to_anthropic)) := by
  refine ⟨⟨?_, ?_⟩, ?_, fun meetList dmsg => rfl⟩
  · rintro ⟨e, he⟩
    cases meetFetch with
    | error m => exact ⟨m, rfl⟩
    | ok l =>
      exfalso
      cases driveFetch <;> cases include_drive <;>
        simp [getGoogleMeetToolsOnce] at he
  · rintro ⟨m, hm⟩
    subst hm
    exact ⟨_, rfl⟩
  · intro e he
    cases meetFetch with
    | error m =>
      simp only [getGoogleMeetToolsOnce, Except.error.injEq] at he
      exact ⟨_, he.symm⟩
    | ok l =>
      exfalso
      cases driveFetch <;> cases include_drive <;>
        simp [getGoogleMeetToolsOnce] at he

/-- Witness for C7: a failing primary fetch yields an error. -/
theorem C7_catalog_fails_iff_primary_witness :
    ∃ e, getGoogleMeetToolsOnce (.error "boom") (.ok []) true = .error e :=
  (C7_catalog_fails_iff_primary (.error "boom") (.ok []) true).1.mpr ⟨"boom", rfl⟩

/-- C8: a failing tool invocation during a turn does not abort the loop —
the run equals the continuation on a transcript extended with the assistant
message and a tool-result block that carries the serialized
`{"error": kind, "message": text}` envelope tagged with the originating
request id; and the invoker performs exactly one attempt (no retry) for a
not-found-class failure. -/
theorem C8_tool_failure_feedback (model : ModelOracle) (tools : ToolOracle)
    (messages : List Message) (n : Nat) (id name : String) (input : Json)
    (e : AgentError)
    (hm : model messages = .ok ⟨.tool_use, [.toolUse id name input]⟩)
    (ht : tools name input = .error e) :
    (agentLoopGo model tools messages (n + 1) =
      let rest := agentLoopGo model tools
        (messages ++ [Message.assistant [.toolUse id name input],
          Message.userResults [⟨id, jsonDumps (.obj [("error", .str e.typeName),
            ("message", .str e.message)])⟩]]) n
      ⟨rest.result, rest.modelCalls + 1, rest.transcript⟩) ∧
    (∀ (tool_slug : String) (envs : Nat → ExecEnv) (rawMsg acct : String),
      (envs 1).connectedAccount = some acct →
      (envs 1).execOutcome = .error rawMsg →
      (strIn "429" (strLower rawMsg) || strIn "rate limit" (strLower rawMsg)) = false →
      (strIn "403" (strLower rawMsg) || strIn "permission" (strLower rawMsg)) = false →
      (strIn "404" (strLower rawMsg) || strIn "not found" (strLower rawMsg)) = true →
      execute_google_meet_tool tool_slug envs =
        ⟨.error (.googleMeetAPIError ("Resource not found: " ++ tool_slug)
          (some 404)), 1, []⟩) := by
  constructor
  · simp only [agentLoopGo, hm, turnToolResults, List.filterMap_cons,
      List.filterMap_nil, execute_tool, ht, List.append_assoc]
    rfl
  · intro tool_slug envs rawMsg acct ha he h1 h2 h3
    apply tenacityRun_nonretryable
    · simp [executeToolOnce, ha, he, classifyExecError, h1, h2, h3]
    · rfl

/-- Witness for C8: a not-found failure is fed back as an envelope and the
loop goes on to finish on the next turn; the invoker ran it once. -/
theorem C8_tool_failure_feedback_witness :
    (agentLoopGo
      (fun ms => if ms.length = 1 then
          .ok ⟨.tool_use, [.toolUse "t1" "X" .null]⟩
        else .ok ⟨.end_turn, [.text "done"]⟩)
      (fun _ _ => .error (.googleMeetAPIError "Resource not found: X" (some 404)))
      [Message.userText "q"] (1 + 1) =
      let rest := agentLoopGo
        (fun ms => if ms.length = 1 then
            .ok ⟨.tool_use, [.toolUse "t1" "X" .null]⟩
          else .ok ⟨.end_turn, [.text "done"]⟩)
        (fun _ _ => .error (.googleMeetAPIError "Resource not found: X" (some 404)))
        ([Message.userText "q"] ++ [Message.assistant [.toolUse "t1" "X" .null],
          Message.userResults [⟨"t1", jsonDumps (.obj
            [("error", .str (AgentError.googleMeetAPIError
              "Resource not found: X" (some 404)).typeName),
             ("message", .str (AgentError.googleMeetAPIError
              "Resource not found: X" (some 404)).message)])⟩]]) 1
      ⟨rest.result, rest.modelCalls + 1, rest.transcript⟩) ∧
    execute_google_meet_tool "GOOGLEMEET_GET_CONFERENCE_RECORD"
      (fun _ => ⟨some "acct", .error "HTTP 404 Not Found", .body []⟩) =
      ⟨.error (.googleMeetAPIError
        ("Resource not found: " ++ "GOOGLEMEET_GET_CONFERENCE_RECORD")
        (some 404)), 1, []⟩ := by
  have h := C8_tool_failure_feedback
    (fun ms => if ms.length = 1 then
        .ok ⟨.tool_use, [.toolUse "t1" "X" .null]⟩
      else .ok ⟨.end_turn, [.text "done"]⟩)
    (fun _ _ => .error (.googleMeetAPIError "Resource not found: X" (some 404)))
    [Message.userText "q"] 1 "t1" "X" .null
    (.googleMeetAPIError "Resource not found: X" (some 404)) rfl rfl
  exact ⟨h.1, h.2 "GOOGLEMEET_GET_CONFERENCE_RECORD"
    (fun _ => ⟨some "acct", .error "HTTP 404 Not Found", .body []⟩)
    "HTTP 404 Not Found" "acct" rfl rfl (by decide) (by decide) (by decide)⟩

/-- C9 counterexample: a run whose (single) loop iteration ends with
`end_turn` performs one iteration yet appends nothing — the transcript does
not grow by an assistant-plus-user pair on that iteration. -/
theorem C9_counterexample :
    (run_agent_loop (fun _ => .ok ⟨.end_turn, [.text "done"]⟩)
      (fun _ _ => .ok .null) "q" 5).modelCalls = 1 ∧
    (run_agent_loop (fun _ => .ok ⟨.end_turn, [.text "done"]⟩)
      (fun _ _ => .ok .null) "q" 5).transcript.length ≠
      1 + 2 * (run_agent_loop (fun _ => .ok ⟨.end_turn, [.text "done"]⟩)
        (fun _ _ => .ok .null) "q" 5).modelCalls := by
  constructor
  · rfl
  · decide

/-- C9 (amended): the transcript is append-only and grows by exactly one
assistant append followed by one user append (carrying all of that turn's
tool results) per tool-requesting iteration; an iteration that ends the
conversation (or hits an unexpected stop reason or an exception) appends
nothing. -/
theorem C9_transcript_growth (model : ModelOracle) (tools : ToolOracle)
    (messages : List Message) (n : Nat) :
    (∃ chunks : List (List Block × List ToolResultBlock),
      (agentLoopGo model tools messages n).transcript =
        messages ++ chunks.flatMap (fun c =>
          [Message.assistant c.1, Message.userResults c.2])) ∧
    (∀ resp, model messages = .ok resp → resp.stop_reason = .tool_use →
      (agentLoopGo model tools messages (n + 1)).transcript =
        (agentLoopGo model tools (messages ++
          [Message.assistant resp.content,
           Message.userResults (turnToolResults tools resp.content)]) n).transcript) ∧
    (∀ resp, model messages = .ok resp → resp.stop_reason = .end_turn →
      (agentLoopGo model tools messages (n + 1)).transcript = messages) := by
  refine ⟨agentLoopGo_transcript_chunks model tools messages n, ?_, ?_⟩
  · intro resp hm hs
    simp [agentLoopGo, hm, hs]
  · intro resp hm hs
    simp [agentLoopGo, hm, hs]

/-- Witness for C9 (amended): a tool-use turn hands the loop exactly the
two appended messages, and an end-turn iteration appends nothing. -/
theorem C9_transcript_growth_witness :
    (agentLoopGo (fun _ => .ok ⟨.tool_use, [.toolUse "t1" "X" .null]⟩)
      (fun _ _ => .ok .null) [Message.userText "q"] (3 + 1)).transcript =
      (agentLoopGo (fun _ => .ok ⟨.tool_use, [.toolUse "t1" "X" .null]⟩)
        (fun _ _ => .ok .null) ([Message.userText "q"] ++
          [Message.assistant [.toolUse "t1" "X" .null],
           Message.userResults (turnToolResults (fun _ _ => .ok .null)
             [.toolUse "t1" "X" .null])]) 3).transcript ∧
    (agentLoopGo (fun _ => .ok ⟨.end_turn, [.text "done"]⟩)
      (fun _ _ => .ok .null) [Message.userText "q"] (3 + 1)).transcript =
      [Message.userText "q"] := by
  constructor
  · exact (C9_transcript_growth (fun _ => .ok ⟨.tool_use, [.toolUse "t1" "X" .null]⟩)
      (fun _ _ => .ok .null) [Message.userText "q"] 3).2.1
      ⟨.tool_use, [.toolUse "t1" "X" .null]⟩ rfl rfl
  · exact (C9_transcript_growth (fun _ => .ok ⟨.end_turn, [.text "done"]⟩)
      (fun _ _ => .ok .null) [Message.userText "q"] 3).2.2
      ⟨.end_turn, [.text "done"]⟩ rfl rfl

/-- C10: `fetch_file_content_from_url` is total over its error branches —
every failure is turned into an `"Error..."` string instead of an
exception — and consequently a download invocation whose GET fails still
returns a success payload whose `file_content` field holds that error
string. -/
theorem C10_fetch_never_raises (env : ExecEnv) (acct : String)
    (fields dataFields downloaded : List (String × Json)) (u m : String)
    (hacct : env.connectedAccount = some acct)
    (hexec : env.execOutcome = .ok (.dict fields))
    (hdata : dget fields "data" = some (.obj dataFields))
    (herr : dget fields "error" = none)
    (hd : dget dataFields "downloaded_file_content" = some (.obj downloaded))
    (hs : dget downloaded "s3url" = some (.str u)) (hu : u ≠ "")
    (hfetch : env.fetchOutcome = .urlError m) :
    (∀ m2, fetch_file_content_from_url (.urlError m2) =
      "Error fetching content: " ++ m2) ∧
    (∀ m2, fetch_file_content_from_url (.exn m2) = "Error: " ++ m2) ∧
    (∀ m2, strStarts "Error" (fetch_file_content_from_url (.urlError m2)) = true ∧
      strStarts "Error" (fetch_file_content_from_url (.exn m2)) = true) ∧
    (∃ finalData : List (String × Json),
      executeToolOnce "GOOGLEDRIVE_DOWNLOAD_FILE" env =
        .ok (.obj [("success", .bool true), ("data", .obj finalData)]) ∧
      dget finalData "file_content" =
        some (.str ("Error fetching content: " ++ m))) := by
  refine ⟨fun m2 => rfl, fun m2 => rfl, ?_, ?_⟩
  · intro m2
    constructor
    · have h2 : "Error fetching content: " ++ m2 =
          "Error" ++ (" fetching content: " ++ m2) := by
        rw [← String.append_assoc]
        rfl
      rw [fetch_file_content_from_url, h2]
      exact strStarts_append "Error" _
    · have h2 : "Error: " ++ m2 = "Error" ++ (": " ++ m2) := by
        rw [← String.append_assoc]
        rfl
      rw [fetch_file_content_from_url, h2]
      exact strStarts_append "Error" _
  · refine ⟨_, executeTool_download_spec env acct fields dataFields downloaded u
      hacct hexec hdata herr hd hs hu, ?_⟩
    rw [dget_dset_of_ne _ "file_content" "downloaded_file_content" _ (by decide),
      dget_dset_of_ne _ "file_content" "content_fetched" _ (by decide),
      dget_dset_self, hfetch]
    rfl

/-- Witness for C10 with a concrete failing GET. -/
theorem C10_fetch_never_raises_witness :
    ∃ finalData : List (String × Json),
      executeToolOnce "GOOGLEDRIVE_DOWNLOAD_FILE"
        ⟨some "acct", .ok (.dict [("data", .obj
          [("downloaded_file_content", .obj [("s3url", .str "http://tmp")])])]),
          .urlError "timed out"⟩ =
        .ok (.obj [("success", .bool true), ("data", .obj finalData)]) ∧
      dget finalData "file_content" =
        some (.str ("Error fetching content: " ++ "timed out")) :=
  (C10_fetch_never_raises
    ⟨some "acct", .ok (.dict [("data", .obj
      [("downloaded_file_content", .obj [("s3url", .str "http://tmp")])])]),
      .urlError "timed out"⟩
    "acct" [("data", .obj [("downloaded_file_content",
      .obj [("s3url", .str "http://tmp")])])]
    [("downloaded_file_content", .obj [("s3url", .str "http://tmp")])]
    [("s3url", .str "http://tmp")] "http://tmp" "timed out"
    rfl rfl rfl rfl rfl rfl (by decide) rfl).2.2.2

end GoogleMeetAgent
